import Mathlib

/-!
Verification of the AVAAD framework (cost tracker, prompt-injection
detector, LLM output validator) against its natural-language specification.

The Python sources are shallowly embedded: pure functions become Lean
functions, Python `float` becomes `ℚ` (with decimal literals read exactly),
Python exceptions become `Except PyError`, and external effects
(`json.loads`/`json.dumps`, the filesystem, subprocess calls) are modelled
at their observation boundary, as noted at each definition.
-/

/-- Python exception values that the embedded code can raise. -/
inductive PyError where
  | keyError (key : String)
  | indexError (msg : String)
  | typeError (msg : String)
deriving DecidableEq, Repr

/-! ## Cost tracker (`src/core/cost_tracker.py`) -/

/-- `CostEntry` dataclass: one AI interaction's accounted cost. -/
structure CostEntry where
  timestamp : String
  agent : String
  model : String
  input_tokens : Int
  output_tokens : Int
  input_cost : ℚ
  output_cost : ℚ
  total_cost : ℚ
  story_id : Option String
  task_description : String
  currency : String
deriving DecidableEq, Repr

/-- The `models` part of the cost-tracking configuration: a price table
mapping a model name to its `(input_cost, output_cost)` $-per-1K-token pair
(`config['models']`). -/
structure CostConfig where
  models : List (String × ℚ × ℚ)
deriving DecidableEq, Repr

/-- Price table of `_get_default_config`. -/
def default_cost_config : CostConfig :=
  { models :=
      [("claude-sonnet-4", 0.003, 0.015),
       ("claude-opus-4", 0.015, 0.075),
       ("gpt-4o", 0.005, 0.015),
       ("gpt-4o-mini", 0.00015, 0.0006),
       ("gpt-4-turbo", 0.01, 0.03)] }

/-- `config.get('models', {}).get(model, {})` followed by
`.get('input_cost', 0.0)` / `.get('output_cost', 0.0)`: the model's price
pair, `(0, 0)` when the model is unknown. -/
def modelPrices (cfg : CostConfig) (model : String) : ℚ × ℚ :=
  (cfg.models.lookup model).getD (0, 0)

/-- `CostTracker.log_interaction` without its I/O tail: builds the
`CostEntry` that is returned and appended to the log.  `timestamp` stands
for `datetime.now().isoformat()`. -/
def log_interaction (cfg : CostConfig) (timestamp agent model : String)
    (input_tokens output_tokens : Int) (story_id : Option String)
    (task_description : String) : CostEntry :=
  let input_price := (modelPrices cfg model).1
  let output_price := (modelPrices cfg model).2
  { timestamp := timestamp
    agent := agent
    model := model
    input_tokens := input_tokens
    output_tokens := output_tokens
    input_cost := input_tokens * input_price / 1000
    output_cost := output_tokens * output_price / 1000
    total_cost := input_tokens * input_price / 1000 + output_tokens * output_price / 1000
    story_id := story_id
    task_description := task_description
    currency := "USD" }

/-- `CostTracker.calculate_roi`.  The Python function returns a dict; dicts
preserve insertion order, so it is embedded as an ordered association list.
Note the two branches return different key sets (`estimated_hours` versus
`estimated_hours_saved`), exactly as in the source. -/
def calculate_roi (entries : List CostEntry) (story_id : String) : List (String × ℚ) :=
  let story_entries := entries.filter (fun e => e.story_id == some story_id)
  if story_entries.isEmpty then
    [("total_cost", 0), ("estimated_hours", 0), ("roi_score", 0)]
  else
    let total_cost := (story_entries.map CostEntry.total_cost).sum
    let estimated_hours := min (total_cost * 10) 8
    let estimated_value := estimated_hours * 50
    let roi_score := if 0 < total_cost then (estimated_value - total_cost) / total_cost * 100 else 0
    [("total_cost", total_cost),
     ("estimated_hours_saved", estimated_hours),
     ("estimated_value", estimated_value),
     ("roi_score", roi_score),
     ("cost_per_hour", if 0 < estimated_hours then total_cost / estimated_hours else 0)]

/-! ### The cost log

`_load_cost_entries` reads the JSON-lines log.  `json.loads` is a library
call, so a physical line is represented by what the tracker observes of it:
it strips to empty (skipped before decoding), it fails JSON decoding
(`json.JSONDecodeError`, caught: the line is skipped), it decodes to a
non-object JSON value (then `CostEntry(**data)` raises `TypeError`,
uncaught), or it decodes to a JSON object with a list of fields. -/

/-- A JSON value as produced by `json.loads` for one field. -/
inductive JVal where
  | jStr (s : String)
  | jInt (n : Int)
  | jNum (q : ℚ)
  | jBool (b : Bool)
  | jNull
deriving DecidableEq, Repr

/-- One physical line of the cost log, by its decode outcome. -/
inductive JLine where
  | blank
  | malformed
  | nonObject (v : JVal)
  | obj (fields : List (String × JVal))
deriving DecidableEq, Repr

/-- The declared field names of the `CostEntry` dataclass, in order. -/
def cost_entry_field_names : List String :=
  ["timestamp", "agent", "model", "input_tokens", "output_tokens",
   "input_cost", "output_cost", "total_cost", "story_id", "task_description", "currency"]

/-- Read a required string field. -/
def jStrField : Option JVal → Option String
  | some (.jStr s) => some s
  | _ => none

/-- Read a required int field. -/
def jIntField : Option JVal → Option Int
  | some (.jInt n) => some n
  | _ => none

/-- Read a required float field (a JSON integer is also a Python number). -/
def jNumField : Option JVal → Option ℚ
  | some (.jNum q) => some q
  | some (.jInt n) => some (n : ℚ)
  | _ => none

/-- Read the optional `story_id` field (`None` when absent or JSON null). -/
def jStoryIdField : Option JVal → Option (Option String)
  | none => some none
  | some .jNull => some none
  | some (.jStr s) => some (some s)
  | _ => none

/-- Read an optional string field with a dataclass default. -/
def jStrFieldD (dflt : String) : Option JVal → Option String
  | none => some dflt
  | some (.jStr s) => some s
  | _ => none

/-- `CostEntry(**data)` for a decoded JSON object: succeeds when every key
is a declared field and the required fields are present, else raises
`TypeError` (unexpected keyword argument / missing required argument).
Python dataclasses do not type-check field values at runtime; a well-keyed
object whose values have unexpected shapes is modelled as a `TypeError`
here — no claim in this development depends on such lines. -/
def cost_entry_of_fields (fs : List (String × JVal)) : Except PyError CostEntry :=
  if fs.all (fun kv => cost_entry_field_names.contains kv.1) then
    match jStrField (fs.lookup "timestamp"), jStrField (fs.lookup "agent"),
          jStrField (fs.lookup "model"),
          jIntField (fs.lookup "input_tokens"), jIntField (fs.lookup "output_tokens"),
          jNumField (fs.lookup "input_cost"), jNumField (fs.lookup "output_cost"),
          jNumField (fs.lookup "total_cost"),
          jStoryIdField (fs.lookup "story_id"),
          jStrFieldD "" (fs.lookup "task_description"),
          jStrFieldD "USD" (fs.lookup "currency") with
    | some ts, some ag, some mo, some it, some ot, some ic, some oc, some tc,
      some sid, some td, some cur =>
        .ok { timestamp := ts, agent := ag, model := mo,
              input_tokens := it, output_tokens := ot,
              input_cost := ic, output_cost := oc, total_cost := tc,
              story_id := sid, task_description := td, currency := cur }
    | _, _, _, _, _, _, _, _, _, _, _ =>
        .error (.typeError "CostEntry() field mismatch")
  else .error (.typeError "CostEntry() got an unexpected keyword argument")

/-- `asdict(entry)` followed by `json.dumps`: the field list written for an
entry, in dataclass field order (`json.dumps` preserves dict order, and
`json.loads` of the written line returns the same object). -/
def entry_fields (e : CostEntry) : List (String × JVal) :=
  [("timestamp", .jStr e.timestamp), ("agent", .jStr e.agent), ("model", .jStr e.model),
   ("input_tokens", .jInt e.input_tokens), ("output_tokens", .jInt e.output_tokens),
   ("input_cost", .jNum e.input_cost), ("output_cost", .jNum e.output_cost),
   ("total_cost", .jNum e.total_cost),
   ("story_id", match e.story_id with | none => .jNull | some s => .jStr s),
   ("task_description", .jStr e.task_description), ("currency", .jStr e.currency)]

/-- `_append_cost_entry`: the line appended to the log for an entry. -/
def append_cost_entry_line (e : CostEntry) : JLine := .obj (entry_fields e)

/-- `_load_cost_entries`: walks the log lines in order, skipping stripped-empty
lines and lines whose JSON decoding fails (`except json.JSONDecodeError:
continue`); any other exception from `CostEntry(**data)` propagates and
aborts the read. -/
def load_cost_entries : List JLine → Except PyError (List CostEntry)
  | [] => .ok []
  | l :: ls =>
    match l with
    | .blank => load_cost_entries ls
    | .malformed => load_cost_entries ls
    | .nonObject _ => .error (.typeError "argument after ** must be a mapping")
    | .obj fs =>
      match cost_entry_of_fields fs with
      | .error err => .error err
      | .ok c => (load_cost_entries ls).map (fun es => c :: es)

/-- A concrete entry for witnesses (token/price numbers of spec §8.1). -/
def demoEntryA : CostEntry :=
  { timestamp := "2025-01-01T10:00:00", agent := "dev", model := "gpt-4o",
    input_tokens := 1000, output_tokens := 200,
    input_cost := 0.005, output_cost := 0.003, total_cost := 0.008,
    story_id := some "S-7", task_description := "", currency := "USD" }

/-- A second concrete entry for witnesses. -/
def demoEntryB : CostEntry :=
  { timestamp := "2025-01-01T11:00:00", agent := "qa", model := "claude-sonnet-4",
    input_tokens := 2000, output_tokens := 100,
    input_cost := 0.006, output_cost := 0.0015, total_cost := 0.0075,
    story_id := none, task_description := "review", currency := "USD" }

/-! ## Prompt injection detector (`src/core/security/prompt_injection_detector.py`) -/

/-- Python `str.lower` over the characters of a text (ASCII, as relevant here). -/
def lowerL (s : List Char) : List Char := s.map Char.toLower

/-- Python `pattern in text`: substring containment (`"" in s` is true). -/
def pyIn (p s : List Char) : Bool :=
  p.isPrefixOf s ||
    (match s with
     | [] => false
     | _ :: t => pyIn p t)

/-- Helper for `countOccur`: scans left to right counting non-overlapping
occurrences; the fuel argument only bounds the recursion and `s.length` is
always enough, since every step consumes at least one character. -/
def countOccurAux (p : List Char) : Nat → List Char → Nat
  | 0, _ => 0
  | _ + 1, [] => 0
  | fuel + 1, c :: rest =>
    if p.isPrefixOf (c :: rest) then 1 + countOccurAux p fuel (rest.drop (p.length - 1))
    else countOccurAux p fuel rest

/-- Python `text.count(pattern)`: non-overlapping occurrences scanned from
the left (`s.count('')` is `len(s) + 1`). -/
def countOccur (p s : List Char) : Nat :=
  if p.isEmpty then s.length + 1 else countOccurAux p s.length s

/-- Python regex `\w` on ASCII: letters, digits and underscore. -/
def isWordChar (c : Char) : Bool := c.isAlphanum || c = '_'

/-- Python `str.strip()` / regex `\s` whitespace set. -/
def isPySpace (c : Char) : Bool :=
  c = ' ' || c = '\t' || c = '\n' || c = '\r' || c = '\x0B' || c = '\x0C'

/-- Regular expressions, as needed for the detector's six dangerous-code
signatures: character predicates, concatenation, alternation, Kleene star
and the word-boundary assertion `\b`. -/
inductive RE where
  | eps
  | chr (p : Char → Bool)
  | cat (a b : RE)
  | alt (a b : RE)
  | star (a : RE)
  | bound

/-- Word boundary `\b`: exactly one of the neighbouring characters is a
word character (text edges count as non-word). -/
def atWordBoundary (prev next : Option Char) : Bool :=
  (prev.elim false isWordChar) != (next.elim false isWordChar)

/-- Kleene-star driver: all states reachable by iterating `step`, provided
each iteration consumes input; the fuel bounds the iteration count and
`s.length + 1` is always enough. -/
def reStarRun (step : Option Char → List Char → List (Option Char × List Char)) :
    Nat → Option Char → List Char → List (Option Char × List Char)
  | 0, prev, s => [(prev, s)]
  | fuel + 1, prev, s =>
    (prev, s) ::
      ((step prev s).filter (fun pr => pr.2.length < s.length)).flatMap
        (fun pr => reStarRun step fuel pr.1 pr.2)

/-- All ways a regex can match a prefix of `s`; each result is the last
consumed character (for `\b`) paired with the remaining input. -/
def reMatch : RE → Option Char → List Char → List (Option Char × List Char)
  | .eps, prev, s => [(prev, s)]
  | .chr p, _, s =>
    match s with
    | [] => []
    | c :: rest => if p c then [(some c, rest)] else []
  | .cat a b, prev, s => (reMatch a prev s).flatMap (fun pr => reMatch b pr.1 pr.2)
  | .alt a b, prev, s => reMatch a prev s ++ reMatch b prev s
  | .bound, prev, s => if atWordBoundary prev s.head? then [(prev, s)] else []
  | .star a, prev, s => reStarRun (reMatch a) (s.length + 1) prev s

/-- Search helper: try to match at every start position, threading the
previous character for boundary assertions. -/
def reSearchAux (r : RE) : Option Char → List Char → Bool
  | prev, [] => !(reMatch r prev []).isEmpty
  | prev, c :: rest => !(reMatch r prev (c :: rest)).isEmpty || reSearchAux r (some c) rest

/-- Python `re.search(pattern, s)` as a boolean (match found anywhere). -/
def re_search (r : RE) (s : List Char) : Bool := reSearchAux r none s

/-- A literal string as a regex. -/
def reLit : List Char → RE
  | [] => .eps
  | c :: cs => .cat (.chr (fun d => d == c)) (reLit cs)

/-- Regex `\s*`. -/
def reSpaces0 : RE := .star (.chr isPySpace)

/-- Regex `\s+`. -/
def reSpaces1 : RE := .cat (.chr isPySpace) reSpaces0

/-- `SecurityAlert` dataclass.  The `evidence` field keeps the character
list of the (possibly truncated) source text. -/
structure SecurityAlert where
  level : String
  title : String
  description : String
  recommendation : String
  evidence : List Char
  agent : Option String
deriving DecidableEq, Repr

/-- The detector's rule set: `prompt_injection_patterns` (category name to
phrase list) and the four `severity_thresholds`. -/
structure DetectorRules where
  prompt_injection_patterns : List (String × List String)
  low : ℚ
  medium : ℚ
  high : ℚ
  critical : ℚ

/-- `_get_default_rules`. -/
def default_rules : DetectorRules :=
  { prompt_injection_patterns :=
      [("system_override",
        ["ignore previous instructions", "system prompt override", "you are now a different",
         "forget your previous role", "disregard all prior", "override system prompt"]),
       ("jailbreak_attempts",
        ["dan mode", "developer mode", "unfiltered response", "no restrictions",
         "bypass safety", "uncensored mode"]),
       ("context_manipulation",
        ["pretend you are", "act as if", "roleplay as", "imagine you are",
         "from now on", "change your personality"]),
       ("code_injection",
        ["execute this code", "run this command", "eval(", "exec(",
         "import os", "subprocess.call"])],
    low := 0.3, medium := 0.6, high := 0.8, critical := 0.95 }

/-- The `severity_map` of `_get_suspicious_patterns` (default weight 0.5). -/
def severity_weight (category : String) : ℚ :=
  (List.lookup category
    [("system_override", 0.8), ("jailbreak_attempts", 0.9),
     ("context_manipulation", 0.6), ("code_injection", 1.0)]).getD 0.5

/-- `_get_suspicious_patterns`: `(category, pattern.lower(), weight)` triples. -/
def get_suspicious_patterns (rules : DetectorRules) : List (String × List Char × ℚ) :=
  rules.prompt_injection_patterns.flatMap
    (fun cp => cp.2.map (fun p => (cp.1, lowerL p.data, severity_weight cp.1)))

/-- The score computed inside `_calculate_severity` (lines 151-161): base
weight, plus `0.2 * count` when the exact pattern occurs more than once,
plus a flat `0.3` when more than two distinct patterns occur in the text. -/
def calc_severity_score (pats : List (String × List Char × ℚ)) (base_weight : ℚ)
    (text pattern : List Char) : ℚ :=
  let pattern_count := countOccur pattern text
  let score := if 1 < pattern_count then base_weight + 0.2 * pattern_count else base_weight
  let total_patterns := (pats.filter (fun t => pyIn t.2.1 text)).length
  if 2 < total_patterns then score + 0.3 else score

/-- The threshold cascade of `_calculate_severity` (lines 163-175). -/
def severity_label (rules : DetectorRules) (score : ℚ) : String :=
  if rules.critical ≤ score then "CRITICAL"
  else if rules.high ≤ score then "HIGH"
  else if rules.medium ≤ score then "MEDIUM"
  else if rules.low ≤ score then "LOW"
  else "LOW"

/-- `_calculate_severity`, split into its score and its threshold mapping. -/
def calculate_severity (rules : DetectorRules) (pats : List (String × List Char × ℚ))
    (base_weight : ℚ) (text pattern : List Char) : String :=
  severity_label rules (calc_severity_score pats base_weight text pattern)

/-- The evidence truncation used by both alert constructors:
`text[:200] + '...' if len(text) > 200 else text`. -/
def trunc_evidence (text : List Char) : List Char :=
  if 200 < text.length then text.take 200 ++ "...".data else text

/-- Helper for `str.title()`: capitalize a cased character after any
non-cased character, lowercase the rest. -/
def titleCaseAux : Bool → List Char → List Char
  | _, [] => []
  | prevAlpha, c :: rest =>
    (if c.isAlpha then (if prevAlpha then c.toLower else c.toUpper) else c) ::
      titleCaseAux c.isAlpha rest

/-- `category.replace("_", " ").title()`. -/
def categoryTitle (category : String) : String :=
  String.mk (titleCaseAux false (category.data.map (fun c => if c = '_' then ' ' else c)))

/-- The per-category recommendation table of `_create_alert`. -/
def category_recommendation (category : String) : String :=
  (List.lookup category
    [("system_override",
      "This appears to be an attempt to override system instructions. Review carefully."),
     ("jailbreak_attempts",
      "Agent may be trying to bypass safety restrictions. Monitor closely."),
     ("context_manipulation",
      "Agent is attempting to change its role or behavior. Verify legitimacy."),
     ("code_injection",
      "Potential code execution attempt detected. Immediate review required.")]).getD
    "Review this interaction for potential security issues."

/-- `_create_alert`. -/
def create_alert (category : String) (pattern : List Char) (severity : String)
    (evidence : List Char) (agent : Option String) : SecurityAlert :=
  { level := severity,
    title := severity ++ " Alert: " ++ categoryTitle category,
    description := "Detected pattern: \"" ++ String.mk pattern ++ "\" in agent communication",
    recommendation := category_recommendation category,
    evidence := trunc_evidence evidence,
    agent := agent }

/-- The six dangerous code signatures of `_check_code_injection`, with
their descriptions.  The regexes (applied with `re.IGNORECASE`, modelled by
searching the lowercased text) are, in source order:
`\bimport\s+(os|subprocess|sys)\b`, `\beval\s*\(`, `\bexec\s*\(`,
`subprocess\.call|subprocess\.run`, `__import__|getattr|setattr`,
`\bopen\s*\(\s*["\']/`. -/
def dangerous_code_patterns : List (RE × String) :=
  [(.cat .bound (.cat (reLit "import".data)
      (.cat reSpaces1 (.cat (.alt (reLit "os".data)
        (.alt (reLit "subprocess".data) (reLit "sys".data))) .bound))),
    "OS Module Import"),
   (.cat .bound (.cat (reLit "eval".data) (.cat reSpaces0 (reLit "(".data))),
    "Code Execution"),
   (.cat .bound (.cat (reLit "exec".data) (.cat reSpaces0 (reLit "(".data))),
    "Code Execution"),
   (.alt (reLit "subprocess.call".data) (reLit "subprocess.run".data),
    "System Command"),
   (.alt (reLit "__import__".data) (.alt (reLit "getattr".data) (reLit "setattr".data)),
    "Reflection Attack"),
   (.cat .bound (.cat (reLit "open".data) (.cat reSpaces0 (.cat (reLit "(".data)
      (.cat reSpaces0 (.cat (.chr (fun c => c == '"' || c == Char.ofNat 39))
        (reLit "/".data)))))),
    "File System Access")]

/-- `_check_code_injection`: one fixed-HIGH alert per matching signature. -/
def check_code_injection (text : List Char) (agent : Option String) : List SecurityAlert :=
  (dangerous_code_patterns.filter (fun dp => re_search dp.1 (lowerL text))).map
    (fun dp =>
      { level := "HIGH",
        title := "Potential " ++ dp.2,
        description := "Detected attempt to " ++ String.mk (lowerL dp.2.data),
        recommendation := "Review this interaction carefully - may be malicious",
        evidence := trunc_evidence text,
        agent := agent })

/-- `analyze_text`: substring alerts for every matching category pattern,
then the dangerous-code alerts; empty input yields no alerts. -/
def analyze_text (rules : DetectorRules) (text : List Char) (agent : Option String) :
    List SecurityAlert :=
  if text.isEmpty then []
  else
    let text_lower := lowerL text
    let pats := get_suspicious_patterns rules
    let pattern_alerts :=
      (pats.filter (fun t => pyIn t.2.1 text_lower)).map
        (fun t => create_alert t.1 t.2.1
          (calculate_severity rules pats t.2.2 text_lower t.2.1) text agent)
    pattern_alerts ++ check_code_injection text agent

/-- Severity levels as an ordinal (LOW < MEDIUM < HIGH < CRITICAL). -/
def severity_rank (level : String) : Nat :=
  if level = "CRITICAL" then 3
  else if level = "HIGH" then 2
  else if level = "MEDIUM" then 1
  else 0

/-- The literal text of spec §8.4, and the same phrase three times. -/
def ipiText : List Char := "ignore previous instructions".data

/-- The tripled phrase for the repetition half of the claim. -/
def ipiText3 : List Char :=
  "ignore previous instructions ignore previous instructions ignore previous instructions".data

/-! ## LLM output validator (`src/core/validators/llm_output_validator.py`) -/

/-- Python `str.strip()`. -/
def pyStrip (s : List Char) : List Char :=
  ((s.dropWhile isPySpace).reverse.dropWhile isPySpace).reverse

/-- Helper for `str.split('\n')` (keeps empty pieces). -/
def splitOnNLAux : List Char → List Char → List (List Char)
  | [], acc => [acc.reverse]
  | c :: rest, acc =>
    if c = '\n' then acc.reverse :: splitOnNLAux rest [] else splitOnNLAux rest (c :: acc)

/-- `agent_output.split('\n')`. -/
def splitLines (s : String) : List (List Char) := splitOnNLAux s.data []

/-- Match a lowercase literal at the head of `s` case-insensitively
(`re.IGNORECASE`); returns the rest on success. -/
def litCI : List Char → List Char → Option (List Char)
  | [], s => some s
  | _ :: _, [] => none
  | p :: ps, c :: cs => if c.toLower = p then litCI ps cs else none

/-- An alternation of literals, tried in source order. -/
def tryLits (pats : List (List Char)) (s : List Char) : Option (List Char) :=
  match pats with
  | [] => none
  | p :: ps =>
    match litCI p s with
    | some r => some r
    | none => tryLits ps s

/-- Regex `\s+`: consume at least one whitespace character, then all of them. -/
def takeSpaces1 (s : List Char) : Option (List Char) :=
  match s with
  | [] => none
  | c :: rest => if isPySpace c then some (rest.dropWhile isPySpace) else none

/-- Regex `(\d+)`: the maximal leading digit run and the rest. -/
def takeDigits1 (s : List Char) : Option (List Char × List Char) :=
  let ds := s.takeWhile Char.isDigit
  if ds.isEmpty then none else some (ds, s.drop ds.length)

/-- Python `int` of a digit string. -/
def digitsToNat (ds : List Char) : Nat :=
  ds.foldl (fun n c => n * 10 + (c.toNat - 48)) 0

/-- All indices of `s` where the (lowercase) literal matches
case-insensitively. -/
def occurIdxs (pat : List Char) : List Char → List Nat
  | [] => if (litCI pat []).isSome then [0] else []
  | c :: rest =>
    (if (litCI pat (c :: rest)).isSome then [0] else []) ++
      (occurIdxs pat rest).map (fun k => k + 1)

/-- First position (left to right) where a positional matcher succeeds:
`re.search` semantics. -/
def searchPos {α : Type} (f : List Char → Option α) : List Char → Option α
  | [] => f []
  | c :: rest =>
    match f (c :: rest) with
    | some v => some v
    | none => searchPos f rest

/-- Claim pattern 1, `(?:fixed|resolved|addressed)\s+(\d+)\s+.*error`, at one
position: verb, whitespace, digit group, whitespace, then `error` anywhere in
the rest of the line (`.*` is free to reach it). -/
def p1At (s : List Char) : Option Int :=
  (tryLits ["fixed".data, "resolved".data, "addressed".data] s).bind fun s1 =>
  (takeSpaces1 s1).bind fun s2 =>
  (takeDigits1 s2).bind fun ds =>
  (takeSpaces1 ds.2).bind fun s4 =>
  if pyIn "error".data (lowerL s4) then some ((digitsToNat ds.1 : Int)) else none

/-- The group of claim pattern 2, `(\w+.*test)`, after the verb and spaces:
a word character first, then (greedily) up to the last occurrence of `test`
that leaves the leading `\w+` at least one character. -/
def p2Group (s4 : List Char) : Option (List Char) :=
  match s4 with
  | [] => none
  | c :: _ =>
    if isWordChar c then
      match ((occurIdxs "test".data s4).filter (fun k => 1 ≤ k)).getLast? with
      | some k => some (s4.take (k + 4))
      | none => none
    else none

/-- Claim pattern 2, `(?:added|implemented|created)\s+(\w+.*test)`, at one
position. -/
def p2At (s : List Char) : Option (List Char) :=
  (tryLits ["added".data, "implemented".data, "created".data] s).bind fun s1 =>
  (takeSpaces1 s1).bind p2Group

/-- The group of claim pattern 3, `(.+\.py)`: greedily up to the last
occurrence of `.py` preceded by at least one character. -/
def p3Group (s4 : List Char) : Option (List Char) :=
  match ((occurIdxs ".py".data s4).filter (fun k => 1 ≤ k)).getLast? with
  | some k => some (s4.take (k + 3))
  | none => none

/-- Claim pattern 3, `(?:updated|modified)\s+(.+\.py)`, at one position. -/
def p3At (s : List Char) : Option (List Char) :=
  (tryLits ["updated".data, "modified".data] s).bind fun s1 =>
  (takeSpaces1 s1).bind p3Group

/-- Claim pattern 4, `(?:coverage|test coverage)\s+(\d+)%`, at one position
(the value goes through Python `float`). -/
def p4At (s : List Char) : Option ℚ :=
  (tryLits ["coverage".data, "test coverage".data] s).bind fun s1 =>
  (takeSpaces1 s1).bind fun s2 =>
  (takeDigits1 s2).bind fun ds =>
  match ds.2 with
  | c :: _ => if c = '%' then some ((digitsToNat ds.1 : ℚ)) else none
  | [] => none

/-- Claim pattern 5, `(?:refactored|improved)\s+(.+)`, at one position; the
greedy group runs to the end of the line. -/
def p5At (s : List Char) : Option (List Char) :=
  (tryLits ["refactored".data, "improved".data] s).bind fun s1 =>
  (takeSpaces1 s1).bind fun s4 =>
  if s4.isEmpty then none else some s4

/-- Claim pattern 6, `(?:documentation|docs)\s+(?:updated|added)`, at one
position.  This pattern has no capture group, so a match makes
`match.group(1)` raise `IndexError('no such group')` in `_extract_claims`. -/
def p6At (s : List Char) : Option Unit :=
  (tryLits ["documentation".data, "docs".data] s).bind fun s1 =>
  (takeSpaces1 s1).bind fun s2 =>
  (tryLits ["updated".data, "added".data] s2).map fun _ => ()

/-- A claim value (`int`, `str`, `float` or `bool` per claim type). -/
inductive ClaimValue where
  | vInt (n : Int)
  | vStr (s : List Char)
  | vFloat (q : ℚ)
  | vBool (b : Bool)
deriving DecidableEq, Repr

/-- An extracted claim. -/
structure Claim where
  ctype : String
  value : ClaimValue
  original_text : List Char
  confidence : ℚ
deriving DecidableEq, Repr

/-- The claims one (stripped, non-empty) line contributes, in pattern
order; a match of the group-less pattern 6 raises `IndexError`, which
discards everything (so its position in the computation is immaterial). -/
def extract_line_claims (line : List Char) : Except PyError (List Claim) :=
  if (searchPos p6At line).isSome then .error (.indexError "no such group")
  else
    .ok
      ((match searchPos p1At line with
        | some n => [{ ctype := "errors_fixed", value := .vInt n,
                       original_text := line, confidence := 0.8 }]
        | none => []) ++
       (match searchPos p2At line with
        | some g => [{ ctype := "tests_added", value := .vStr g,
                       original_text := line, confidence := 0.8 }]
        | none => []) ++
       (match searchPos p3At line with
        | some g => [{ ctype := "files_modified", value := .vStr g,
                       original_text := line, confidence := 0.8 }]
        | none => []) ++
       (match searchPos p4At line with
        | some q => [{ ctype := "test_coverage", value := .vFloat q,
                       original_text := line, confidence := 0.8 }]
        | none => []) ++
       (match searchPos p5At line with
        | some g => [{ ctype := "refactoring", value := .vStr g,
                       original_text := line, confidence := 0.8 }]
        | none => []))

/-- Helper folding `_extract_claims` over the split lines. -/
def extractClaimsAux : List (List Char) → Except PyError (List Claim)
  | [] => .ok []
  | l :: ls =>
    let line := pyStrip l
    if line.isEmpty then extractClaimsAux ls
    else
      match extract_line_claims line with
      | .error e => .error e
      | .ok cs => (extractClaimsAux ls).map (fun rest => cs ++ rest)

/-- `_extract_claims`. -/
def extract_claims (agent_output : String) : Except PyError (List Claim) :=
  extractClaimsAux (splitLines agent_output)

/-- `f.endswith(suffix)`. -/
def listEndsWith (suffix s : List Char) : Bool := suffix.reverse.isPrefixOf s.reverse

/-- One verification record, a Python dict whose `'matched'` key may be
absent (`Option`). -/
structure VRecord where
  rtype : String
  message : String
  matched : Option Bool
deriving DecidableEq, Repr

/-- The short-circuit record of `_verify_claims` for an empty
`files_changed` (note: no `'matched'` key). -/
def missing_files_record : VRecord :=
  { rtype := "missing_files", message := "No files specified for validation", matched := none }

/-- The external world of the validator: the strict-type-checker error
count (`_count_mypy_errors` already catches its own exceptions), file
existence and reads, the Python compiler's syntax verdict on a file's text,
the test-runner outcome as (PASSED count, FAILED count), the test files the
project directories contain, and the README text when present. -/
structure Env where
  mypy_error_count : List String → Nat
  file_exists : String → Bool
  read_file : String → Except String String
  syntax_error : String → Option String
  pytest_run : Except String (Nat × Nat)
  project_test_files : List String
  readme : Option String

/-- One claim's contribution to `_verify_claims` (lines 193-224): `none`
when a claim of type `errors_fixed` / `tests_added` / `documentation`
passes its check, a record otherwise; any other type yields an
`unverified_claim` record with `matched: True`.  Comparing a non-integer
claim value with the error count would raise `TypeError` in Python;
extraction only ever stores integers for `errors_fixed`. -/
def verify_one_claim (env : Env) (files_changed : List String) (c : Claim) :
    Except PyError (Option VRecord) :=
  if c.ctype = "errors_fixed" then
    match c.value with
    | .vInt n =>
      if n < (env.mypy_error_count files_changed : Int) then
        .ok (some
          { rtype := "false_claim",
            message := "Agent claimed to fix " ++ toString n ++ " errors, but "
              ++ toString (env.mypy_error_count files_changed) ++ " still exist",
            matched := some false })
      else .ok none
    | _ => .error (.typeError "unorderable types")
  else if c.ctype = "tests_added" then
    if (files_changed.filter (fun f => pyIn "test".data (lowerL f.data))).isEmpty then
      .ok (some
        { rtype := "missing_tests",
          message := "Agent claimed to add tests but no test files found",
          matched := some false })
    else .ok none
  else if c.ctype = "documentation" then
    if (files_changed.filter
        (fun f => listEndsWith ".md".data f.data || pyIn "doc".data (lowerL f.data))).isEmpty then
      .ok (some
        { rtype := "missing_documentation",
          message := "Agent claimed to update documentation but no doc files changed",
          matched := some false })
    else .ok none
  else
    .ok (some
      { rtype := "unverified_claim",
        message := "Claim \"" ++ String.mk c.original_text ++ "\" requires manual verification",
        matched := some true })

/-- Helper folding `verify_one_claim` over the claims. -/
def verifyClaimsAux (env : Env) (files_changed : List String) :
    List Claim → Except PyError (List VRecord)
  | [] => .ok []
  | c :: cs =>
    match verify_one_claim env files_changed c with
    | .error e => .error e
    | .ok none => verifyClaimsAux env files_changed cs
    | .ok (some r) => (verifyClaimsAux env files_changed cs).map (fun rs => r :: rs)

/-- `_verify_claims`. -/
def verify_claims (env : Env) (claims : List Claim) (files_changed : List String) :
    Except PyError (List VRecord) :=
  if files_changed.isEmpty then .ok [missing_files_record]
  else verifyClaimsAux env files_changed claims

/-- `sum(1 for r in claim_results if r['matched'])` at line 117: raises
`KeyError` at the first record without a `'matched'` key. -/
def matched_count : List VRecord → Except PyError Nat
  | [] => .ok 0
  | r :: rs =>
    match r.matched with
    | none => .error (.keyError "matched")
    | some b => (matched_count rs).map (fun n => if b then n + 1 else n)

/-- The result shape of `_check_code_quality`. -/
structure QualityResult where
  score : ℚ
  issues : List String
  recommendations : List String
  files_checked : List String
deriving Repr

/-- The per-file body of the `_check_code_quality` loop. -/
def qualityStep (env : Env) (st : QualityResult) (file_path : String) : QualityResult :=
  if !listEndsWith ".py".data file_path.data then st
  else if !env.file_exists file_path then st
  else
    let st := { st with files_checked := st.files_checked ++ [file_path] }
    match env.read_file file_path with
    | .error e =>
      { st with
        issues := st.issues ++ ["Could not check " ++ file_path ++ ": " ++ e],
        score := st.score - 0.1 }
    | .ok content =>
      let st := if 1000 < content.length then { st with score := st.score - 0.1 } else st
      let st :=
        match env.syntax_error content with
        | some e =>
          { st with
            issues := st.issues ++ ["Syntax error in " ++ file_path ++ ": " ++ e],
            score := st.score - 0.3 }
        | none => st
      let st :=
        if pyIn "TODO".data content.data || pyIn "FIXME".data content.data then
          { st with
            issues := st.issues ++ ["TODO/FIXME comments found in " ++ file_path],
            score := st.score - 0.05 }
        else st
      if pyIn "print(".data content.data && !pyIn "logging".data content.data then
        { st with recommendations := st.recommendations
            ++ ["Consider using logging instead of print() in " ++ file_path] }
      else st

/-- `_check_code_quality`. -/
def check_code_quality (env : Env) (files : List String) : QualityResult :=
  if files.isEmpty then
    { score := 0.5, issues := [], recommendations := [], files_checked := [] }
  else
    let st := files.foldl (qualityStep env)
      { score := 0.8, issues := [], recommendations := [], files_checked := [] }
    { st with score := max 0 st.score }

/-- The result shape of `_validate_tests`. -/
structure TestResult where
  passed : Nat
  total : Nat
  issues : List String
  recommendations : List String
deriving Repr

/-- `_validate_tests`: when neither `files_changed` nor the project's test
directories contain a test file, report none found; otherwise run the test
runner (`env.pytest_run` carries the PASSED/FAILED counts of its output, or
the exception message). -/
def validate_tests (env : Env) (files : List String) : TestResult :=
  let test_files := files.filter
    (fun f => pyIn "test".data (lowerL f.data) && listEndsWith ".py".data f.data)
  if test_files.isEmpty && env.project_test_files.isEmpty then
    { passed := 0, total := 0, issues := ["No test files found"],
      recommendations := ["Add tests to verify functionality"] }
  else
    match env.pytest_run with
    | .error e =>
      { passed := 0, total := 0, issues := ["Could not run tests: " ++ e],
        recommendations := ["Install pytest: pip install pytest"] }
    | .ok (passed, failed) =>
      { passed := passed, total := passed + failed,
        issues := if failed = 0 then [] else [toString failed ++ " tests failed"],
        recommendations := if 0 < passed + failed then [] else ["Add tests for new functionality"] }

/-- The result shape of `_check_documentation`. -/
structure DocResult where
  score : ℚ
  issues : List String
  recommendations : List String
deriving Repr

/-- The per-file body of the `_check_documentation` loop (read failures are
silently skipped by its `except: continue`; a missing or unreadable README
is `none`). -/
def docStep (env : Env) (st : DocResult) (file_path : String) : DocResult :=
  if !listEndsWith ".py".data file_path.data then st
  else if !env.file_exists file_path then st
  else
    match env.read_file file_path with
    | .error _ => st
    | .ok content =>
      let st :=
        if pyIn "def ".data content.data && !pyIn "\"\"\"".data content.data then
          { st with
            issues := st.issues ++ ["Missing docstrings in " ++ file_path],
            score := st.score - 0.1 }
        else st
      if 100 < content.length then
        match env.readme with
        | some readme_content =>
          if !pyIn file_path.data readme_content.data then
            { st with recommendations := st.recommendations
                ++ ["Consider updating README.md to mention changes in " ++ file_path] }
          else st
        | none => st
      else st

/-- `_check_documentation`. -/
def check_documentation (env : Env) (files : List String) : DocResult :=
  let st := files.foldl (docStep env) { score := 1, issues := [], recommendations := [] }
  { st with score := max 0 st.score }

/-- The `evidence` mapping of `validate_agent_output`
(`documentation_score` is added in step 5, hence optional). -/
structure Evidence where
  story_id : String
  files_checked : List String
  tests_passed : Nat
  tests_total : Nat
  code_quality_score : ℚ
  claims_matched : Nat
  claims_total : Nat
  documentation_score : Option ℚ
deriving Repr

/-- `ValidationResult` dataclass (issues already through Python `str`). -/
structure ValidationResult where
  is_valid : Bool
  score : ℚ
  issues : List String
  recommendations : List String
  evidence : Evidence
deriving Repr

/-- A single-quote character, for rendering Python dict reprs. -/
def sqChar : String := (Char.ofNat 39).toString

/-- Python `str` of a verification-record dict, as the final
`[str(issue) for issue in issues]` renders it (insertion order). -/
def record_str (r : VRecord) : String :=
  "\x7b" ++ sqChar ++ "type" ++ sqChar ++ ": " ++ sqChar ++ r.rtype ++ sqChar ++ ", "
    ++ sqChar ++ "message" ++ sqChar ++ ": " ++ sqChar ++ r.message ++ sqChar
    ++ (match r.matched with
        | none => ""
        | some b => ", " ++ sqChar ++ "matched" ++ sqChar ++ ": "
            ++ (if b then "True" else "False"))
    ++ "\x7d"

/-- The claims-matched ratio of `_calculate_overall_score` (lines 410-412). -/
def claims_ratio (ev : Evidence) : ℚ :=
  if 0 < ev.claims_total then (ev.claims_matched : ℚ) / ev.claims_total else 0

/-- The test ratio of `_calculate_overall_score` (lines 405-407). -/
def test_ratio (ev : Evidence) : ℚ :=
  if 0 < ev.tests_total then (ev.tests_passed : ℚ) / ev.tests_total else 0

/-- `_calculate_overall_score`: the weighted sum, minus 0.2 per issue whose
rendering contains `false_claim`, clamped to [0, 1]. -/
def calculate_overall_score (ev : Evidence) (issues : List String) : ℚ :=
  let score := claims_ratio ev * 0.3 + ev.code_quality_score * 0.25
      + test_ratio ev * 0.25 + ev.documentation_score.getD 0.5 * 0.2
  let critical_issues := (issues.filter (fun i => pyIn "false_claim".data i.data)).length
  max 0 (min 1 (score - critical_issues * 0.2))

/-- `validate_agent_output`: claim extraction, claim verification, the
`claims_matched` count (which subscripts `r['matched']`), the three
file-based checks, and score aggregation. -/
def validate_agent_output (env : Env) (story_id : String) (agent_output : String)
    (files_changed : List String) : Except PyError ValidationResult :=
  match extract_claims agent_output with
  | .error e => .error e
  | .ok claims =>
    match verify_claims env claims files_changed with
    | .error e => .error e
    | .ok claim_results =>
      match matched_count claim_results with
      | .error e => .error e
      | .ok matched =>
        let quality := check_code_quality env files_changed
        let tests := validate_tests env files_changed
        let docs := check_documentation env files_changed
        let ev : Evidence :=
          { story_id := story_id, files_checked := quality.files_checked,
            tests_passed := tests.passed, tests_total := tests.total,
            code_quality_score := quality.score,
            claims_matched := matched, claims_total := claims.length,
            documentation_score := some docs.score }
        let issues := claim_results.map record_str ++ quality.issues
            ++ tests.issues ++ docs.issues
        let score := calculate_overall_score ev issues
        .ok
          { is_valid := decide ((0.7 : ℚ) ≤ score), score := score,
            issues := issues,
            recommendations := quality.recommendations ++ tests.recommendations
              ++ docs.recommendations,
            evidence := ev }

/-- A concrete environment for witnesses: no type errors, no readable
files, no project test files, no README. -/
def envDemo : Env :=
  { mypy_error_count := fun _ => 0,
    file_exists := fun _ => false,
    read_file := fun _ => .error "unreadable",
    syntax_error := fun _ => none,
    pytest_run := .ok (0, 0),
    project_test_files := [],
    readme := none }

/-- Projection used by the C10 witness: the `claims_matched` figure of a
completed validation. -/
def claims_matched_of : Except PyError ValidationResult → Option Nat
  | .ok r => some r.evidence.claims_matched
  | .error _ => none

/-- Proposition used by the C7 witness: a completed validation whose score
lies in the unit interval. -/
def score_in_unit : Except PyError ValidationResult → Prop
  | .ok r => 0 ≤ r.score ∧ r.score ≤ 1
  | .error _ => False

/-- The claims extracted from the C10 witness output. -/
def c10DemoClaims : List Claim :=
  [{ ctype := "errors_fixed", value := .vInt 3,
     original_text := "Fixed 3 import errors".data, confidence := 0.8 },
   { ctype := "tests_added", value := .vStr "unit test".data,
     original_text := "added unit test".data, confidence := 0.8 }]

-- ===================== THEOREMS =====================

/-- C2: every `CostEntry` built (and therefore written) by
`log_interaction` satisfies `input_cost = input_tokens * input_price / 1000`,
`output_cost = output_tokens * output_price / 1000` and
`total_cost = input_cost + output_cost`, where the price pair is the model's
configured pair, defaulting to `(0, 0)` for an unknown model. -/
theorem log_interaction_cost_formula (cfg : CostConfig) (ts agent model : String)
    (input_tokens output_tokens : Int) (story_id : Option String) (td : String) :
    (log_interaction cfg ts agent model input_tokens output_tokens story_id td).input_cost
        = input_tokens * (modelPrices cfg model).1 / 1000 ∧
    (log_interaction cfg ts agent model input_tokens output_tokens story_id td).output_cost
        = output_tokens * (modelPrices cfg model).2 / 1000 ∧
    (log_interaction cfg ts agent model input_tokens output_tokens story_id td).total_cost
        = (log_interaction cfg ts agent model input_tokens output_tokens story_id td).input_cost
          + (log_interaction cfg ts agent model input_tokens output_tokens story_id td).output_cost ∧
    modelPrices cfg model = (cfg.models.lookup model).getD (0, 0) :=
  ⟨rfl, rfl, rfl, rfl⟩

/-- C4: for a story with at least one matching entry, `calculate_roi`
returns `estimated_hours_saved = min(total_cost * 10, 8)`,
`estimated_value = estimated_hours_saved * 50`, `roi_score =
(estimated_value - total_cost) / total_cost * 100` when `total_cost > 0`,
and `cost_per_hour = total_cost / estimated_hours_saved` when the hours are
positive, with `total_cost` the sum over the matching entries. -/
theorem calculate_roi_formulas (entries : List CostEntry) (sid : String)
    (h : entries.filter (fun e => e.story_id == some sid) ≠ []) :
    (calculate_roi entries sid).lookup "total_cost"
        = some ((entries.filter (fun e => e.story_id == some sid)).map CostEntry.total_cost).sum ∧
    (calculate_roi entries sid).lookup "estimated_hours_saved"
        = some (min (((entries.filter (fun e => e.story_id == some sid)).map CostEntry.total_cost).sum * 10) 8) ∧
    (calculate_roi entries sid).lookup "estimated_value"
        = some (min (((entries.filter (fun e => e.story_id == some sid)).map CostEntry.total_cost).sum * 10) 8 * 50) ∧
    (0 < ((entries.filter (fun e => e.story_id == some sid)).map CostEntry.total_cost).sum →
      (calculate_roi entries sid).lookup "roi_score"
        = some ((min (((entries.filter (fun e => e.story_id == some sid)).map CostEntry.total_cost).sum * 10) 8 * 50
                  - ((entries.filter (fun e => e.story_id == some sid)).map CostEntry.total_cost).sum)
                / ((entries.filter (fun e => e.story_id == some sid)).map CostEntry.total_cost).sum * 100)) ∧
    (0 < min (((entries.filter (fun e => e.story_id == some sid)).map CostEntry.total_cost).sum * 10) 8 →
      (calculate_roi entries sid).lookup "cost_per_hour"
        = some (((entries.filter (fun e => e.story_id == some sid)).map CostEntry.total_cost).sum
                / min (((entries.filter (fun e => e.story_id == some sid)).map CostEntry.total_cost).sum * 10) 8)) := by
  have hne : (entries.filter (fun e => e.story_id == some sid)).isEmpty = false := by
    cases hh : entries.filter (fun e => e.story_id == some sid) with
    | nil => exact absurd hh h
    | cons a l => rfl
  have hroi : calculate_roi entries sid =
      [("total_cost", ((entries.filter (fun e => e.story_id == some sid)).map CostEntry.total_cost).sum),
       ("estimated_hours_saved", min (((entries.filter (fun e => e.story_id == some sid)).map CostEntry.total_cost).sum * 10) 8),
       ("estimated_value", min (((entries.filter (fun e => e.story_id == some sid)).map CostEntry.total_cost).sum * 10) 8 * 50),
       ("roi_score", if 0 < ((entries.filter (fun e => e.story_id == some sid)).map CostEntry.total_cost).sum then
          (min (((entries.filter (fun e => e.story_id == some sid)).map CostEntry.total_cost).sum * 10) 8 * 50
            - ((entries.filter (fun e => e.story_id == some sid)).map CostEntry.total_cost).sum)
          / ((entries.filter (fun e => e.story_id == some sid)).map CostEntry.total_cost).sum * 100 else 0),
       ("cost_per_hour", if 0 < min (((entries.filter (fun e => e.story_id == some sid)).map CostEntry.total_cost).sum * 10) 8 then
          ((entries.filter (fun e => e.story_id == some sid)).map CostEntry.total_cost).sum
            / min (((entries.filter (fun e => e.story_id == some sid)).map CostEntry.total_cost).sum * 10) 8 else 0)] := by
    unfold calculate_roi
    simp only [hne, Bool.false_eq_true, if_false]
  rw [hroi]
  refine ⟨rfl, rfl, rfl, fun hpos => ?_, fun hpos => ?_⟩
  · rw [if_pos hpos]
    simp [List.lookup]
  · rw [if_pos hpos]
    simp [List.lookup]

/-- C4 witness: the single-entry story "S-7" with total cost 0.008 gives
hours `0.08`, value `4`, an roi score and a cost per hour. -/
theorem calculate_roi_formulas_witness :
    (calculate_roi [demoEntryA] "S-7").lookup "estimated_hours_saved" = some 0.08 ∧
    (calculate_roi [demoEntryA] "S-7").lookup "estimated_value" = some 4 ∧
    (calculate_roi [demoEntryA] "S-7").lookup "roi_score" = some 49900 ∧
    (calculate_roi [demoEntryA] "S-7").lookup "cost_per_hour" = some 0.1 := by
  have hfilter : ([demoEntryA].filter (fun e => e.story_id == some "S-7")) = [demoEntryA] := by
    simp +decide [demoEntryA]
  have h := calculate_roi_formulas [demoEntryA] "S-7" (by rw [hfilter]; simp)
  rw [hfilter] at h
  have hsum : ([demoEntryA].map CostEntry.total_cost).sum = 0.008 := by
    simp [demoEntryA]
  rw [hsum] at h
  obtain ⟨-, h2, h3, h4, h5⟩ := h
  refine ⟨?_, ?_, ?_, ?_⟩
  · rw [h2]; norm_num
  · rw [h3]; norm_num
  · rw [h4 (by norm_num)]; norm_num
  · rw [h5 (by norm_num)]; norm_num

/-- C6: evaluation at the failing input — for a story with no matching
entries, `calculate_roi` returns the keys `total_cost`, `estimated_hours`
and `roi_score` only (the claimed keys `estimated_hours_saved`,
`estimated_value` and `cost_per_hour` are absent; the module's own CLI then
crashes reading `roi['estimated_hours_saved']`). -/
theorem calculate_roi_empty_shape :
    calculate_roi [] "S-404" = [("total_cost", 0), ("estimated_hours", 0), ("roi_score", 0)] ∧
    (calculate_roi [] "S-404").lookup "estimated_hours_saved" = none ∧
    (calculate_roi [] "S-404").lookup "cost_per_hour" = none := by
  refine ⟨rfl, ?_, ?_⟩ <;> simp +decide [calculate_roi]

/-- C5 counterexample: a line that decodes as a JSON object but is not a
valid `CostEntry` record (`{"foo": 1}`) raises an uncaught `TypeError` and
aborts the whole read: the well-formed entries around it are lost, refuting
"never aborting the whole read because one line is malformed". -/
theorem load_cost_entries_aborts_on_bad_record :
    load_cost_entries
        [append_cost_entry_line demoEntryA, .obj [("foo", .jInt 1)],
         append_cost_entry_line demoEntryB]
      = .error (.typeError "CostEntry() got an unexpected keyword argument") ∧
    load_cost_entries
        [append_cost_entry_line demoEntryA, .obj [("foo", .jInt 1)],
         append_cost_entry_line demoEntryB]
      ≠ .ok [demoEntryA, demoEntryB] := by
  have h1 : load_cost_entries
      [append_cost_entry_line demoEntryA, .obj [("foo", .jInt 1)],
       append_cost_entry_line demoEntryB]
      = .error (.typeError "CostEntry() got an unexpected keyword argument") := rfl
  exact ⟨h1, fun hcontra => Except.noConfusion (h1.symm.trans hcontra)⟩

/-- C5 (amended): a line that strips to empty or whose JSON decoding fails
is skipped individually — deleting it from the log does not change the
result of the read; reads abort only on lines that decode to JSON that is
not a valid `CostEntry` record. -/
theorem load_cost_entries_skips_undecodable (xs ys : List JLine) (l : JLine)
    (h : l = .malformed ∨ l = .blank) :
    load_cost_entries (xs ++ l :: ys) = load_cost_entries (xs ++ ys) := by
  induction xs with
  | nil => rcases h with h | h <;> subst h <;> rfl
  | cons x xs ih =>
    cases x with
    | blank => simpa [load_cost_entries] using ih
    | malformed => simpa [load_cost_entries] using ih
    | nonObject v => simp [load_cost_entries]
    | obj fs =>
      cases hc : cost_entry_of_fields fs with
      | error err => simp [load_cost_entries, hc]
      | ok c => simp [load_cost_entries, hc, ih]

/-- C5 witness: a malformed line between two good lines is skipped. -/
theorem load_cost_entries_skips_undecodable_witness :
    load_cost_entries ([append_cost_entry_line demoEntryA] ++ .malformed :: [append_cost_entry_line demoEntryB])
      = load_cost_entries ([append_cost_entry_line demoEntryA] ++ [append_cost_entry_line demoEntryB]) :=
  load_cost_entries_skips_undecodable [append_cost_entry_line demoEntryA]
    [append_cost_entry_line demoEntryB] .malformed (Or.inl rfl)

/-- Serialize-then-parse is the identity on cost entries. -/
theorem cost_entry_fields_roundtrip (e : CostEntry) :
    cost_entry_of_fields (entry_fields e) = .ok e := by
  cases e with
  | mk ts ag mo it ot ic oc tc sid td cur => cases sid <;> rfl

/-- C8: appending an entry to any readable log and reloading yields exactly
the old entries followed by an entry identical field-for-field to the one
appended (serialization is lossless for the declared field set). -/
theorem load_after_append (content : List JLine) (es : List CostEntry) (e : CostEntry)
    (h : load_cost_entries content = .ok es) :
    load_cost_entries (content ++ [append_cost_entry_line e]) = .ok (es ++ [e]) := by
  induction content generalizing es with
  | nil =>
    simp only [load_cost_entries] at h
    cases h
    simp [load_cost_entries, append_cost_entry_line, cost_entry_fields_roundtrip, Except.map]
  | cons l ls ih =>
    cases l with
    | blank => exact ih es h
    | malformed => exact ih es h
    | nonObject v => exact absurd h (by simp [load_cost_entries])
    | obj fs =>
      cases hc : cost_entry_of_fields fs with
      | error err =>
        rw [show load_cost_entries (JLine.obj fs :: ls) = .error err by
          simp [load_cost_entries, hc]] at h
        exact absurd h (by simp)
      | ok c =>
        have hstep : ∀ rest : List JLine, load_cost_entries (JLine.obj fs :: rest)
            = (load_cost_entries rest).map (fun es => c :: es) := by
          intro rest
          simp [load_cost_entries, hc]
        rw [hstep ls] at h
        cases hl : load_cost_entries ls with
        | error err => rw [hl] at h; simp [Except.map] at h
        | ok es' =>
          rw [hl] at h
          simp only [Except.map] at h
          cases h
          rw [List.cons_append, hstep (ls ++ [append_cost_entry_line e]), ih es' hl]
          simp [Except.map]

/-- C8 witness: appending `demoEntryA` to the empty log and reloading
yields exactly `[demoEntryA]`. -/
theorem load_after_append_witness :
    load_cost_entries ([] ++ [append_cost_entry_line demoEntryA]) = .ok ([] ++ [demoEntryA]) :=
  load_after_append [] [] demoEntryA rfl

/-- Helper: the detector's answer on the literal phrase, shared by the C3
theorem and the C9 witness. -/
theorem analyze_ignore_eval :
    analyze_text default_rules ipiText none
      = [create_alert "system_override" ipiText "HIGH" ipiText none] := by
  have h1 : check_code_injection ipiText none = [] := rfl
  have h2 : (get_suspicious_patterns default_rules).filter
      (fun t => pyIn t.2.1 (lowerL ipiText)) = [("system_override", ipiText, 0.8)] := rfl
  have h3 : calculate_severity default_rules (get_suspicious_patterns default_rules)
      0.8 (lowerL ipiText) ipiText = "HIGH" := by
    unfold calculate_severity severity_label calc_severity_score
    have hc : countOccur ipiText (lowerL ipiText) = 1 := by decide
    have ht : ((get_suspicious_patterns default_rules).filter
        (fun t => pyIn t.2.1 (lowerL ipiText))).length = 1 := by rw [h2]; rfl
    have hcrit : default_rules.critical = 0.95 := rfl
    have hhigh : default_rules.high = 0.8 := rfl
    simp only [hc, ht, hcrit, hhigh]
    norm_num
  unfold analyze_text
  simp only [show ipiText.isEmpty = false from rfl, Bool.false_eq_true, if_false]
  rw [h2, h1]
  simp only [List.map, List.append_nil]
  rw [h3]

/-- C3: under the default rules, the text "ignore previous instructions"
yields exactly one alert, built from the `system_override` category, whose
severity (HIGH) is at least LOW; and the severity score computed for the
phrase tripled in one input is strictly greater than for one occurrence. -/
theorem analyze_text_single_injection :
    analyze_text default_rules ipiText none
      = [create_alert "system_override" ipiText "HIGH" ipiText none] ∧
    severity_rank "HIGH" ≥ severity_rank "LOW" ∧
    calc_severity_score (get_suspicious_patterns default_rules) 0.8 (lowerL ipiText3) ipiText
      > calc_severity_score (get_suspicious_patterns default_rules) 0.8 (lowerL ipiText) ipiText := by
  refine ⟨analyze_ignore_eval, by decide, ?_⟩
  have hc3 : countOccur ipiText (lowerL ipiText3) = 3 := by decide
  have hc1 : countOccur ipiText (lowerL ipiText) = 1 := by decide
  have ht3 : ((get_suspicious_patterns default_rules).filter
      (fun t => pyIn t.2.1 (lowerL ipiText3))).length = 1 := rfl
  have ht1 : ((get_suspicious_patterns default_rules).filter
      (fun t => pyIn t.2.1 (lowerL ipiText))).length = 1 := rfl
  unfold calc_severity_score
  simp only [hc3, hc1, ht3, ht1]
  norm_num

/-- C9: every alert produced by `analyze_text` carries as evidence the
original input text when it has at most 200 characters, and otherwise its
first 200 characters followed by an ellipsis; in all cases the evidence
length is at most 203. -/
theorem analyze_text_evidence_truncated (rules : DetectorRules) (text : List Char)
    (agent : Option String) (alert : SecurityAlert)
    (h : alert ∈ analyze_text rules text agent) :
    alert.evidence = trunc_evidence text ∧
    (text.length ≤ 200 → alert.evidence = text) ∧
    (200 < text.length → alert.evidence = text.take 200 ++ "...".data) ∧
    alert.evidence.length ≤ 203 := by
  have hev : alert.evidence = trunc_evidence text := by
    unfold analyze_text at h
    by_cases he : text.isEmpty
    · simp [he] at h
    · simp only [he, Bool.false_eq_true, if_false, List.mem_append, List.mem_map,
        check_code_injection] at h
      rcases h with ⟨t, ht, rfl⟩ | ⟨dp, hdp, rfl⟩ <;> rfl
  refine ⟨hev, ?_, ?_, ?_⟩
  · intro hle
    rw [hev]
    unfold trunc_evidence
    rw [if_neg (by omega)]
  · intro hgt
    rw [hev]
    unfold trunc_evidence
    rw [if_pos hgt]
  · rw [hev]
    unfold trunc_evidence
    by_cases hgt : 200 < text.length
    · rw [if_pos hgt]
      simp only [List.length_append, List.length_take, List.length_cons, List.length_nil]
      omega
    · rw [if_neg hgt]
      omega

/-- C9 witness: the single alert for the short phrase carries the whole
phrase as evidence, whose length is within the 203-character bound. -/
theorem analyze_text_evidence_truncated_witness :
    create_alert "system_override" ipiText "HIGH" ipiText none
      ∈ analyze_text default_rules ipiText none ∧
    (create_alert "system_override" ipiText "HIGH" ipiText none).evidence.length ≤ 203 := by
  have hmem : create_alert "system_override" ipiText "HIGH" ipiText none
      ∈ analyze_text default_rules ipiText none := by
    rw [analyze_ignore_eval]
    exact List.mem_singleton.mpr rfl
  exact ⟨hmem, (analyze_text_evidence_truncated default_rules ipiText none _ hmem).2.2.2⟩

/-- Bounds of the clamp in `_calculate_overall_score`. -/
theorem overall_score_bounds (ev : Evidence) (issues : List String) :
    0 ≤ calculate_overall_score ev issues ∧ calculate_overall_score ev issues ≤ 1 :=
  ⟨le_max_left 0 _, max_le zero_le_one (min_le_left 1 _)⟩

/-- C1: evaluation at the failing input — with `files_changed` empty,
`validate_agent_output` on the spec's example output does not return a
`ValidationResult` at all: `_verify_claims` does short-circuit with the
single `missing_files` finding, but that record has no `'matched'` key, so
the `claims_matched` sum at line 117 raises `KeyError('matched')`. -/
theorem validate_empty_files_keyerror (env : Env) (story_id : String) :
    validate_agent_output env story_id "Fixed 3 import errors" []
      = .error (.keyError "matched") := rfl

/-- C7: whenever `validate_agent_output` returns a `ValidationResult`, its
score lies in [0, 1] — the aggregation clamps the weighted sum and the
false-claim penalties. -/
theorem validate_score_clamped (env : Env) (story_id agent_output : String)
    (files_changed : List String) (r : ValidationResult)
    (h : validate_agent_output env story_id agent_output files_changed = .ok r) :
    0 ≤ r.score ∧ r.score ≤ 1 := by
  unfold validate_agent_output at h
  split at h
  · exact absurd h (by simp)
  · split at h
    · exact absurd h (by simp)
    · split at h
      · exact absurd h (by simp)
      · cases h
        exact overall_score_bounds _ _

/-- C7 witness: a concrete completed validation has its score in [0, 1]. -/
theorem validate_score_clamped_witness :
    score_in_unit (validate_agent_output envDemo "S" "hello" ["a.txt"]) := by
  have hok : (validate_agent_output envDemo "S" "hello" ["a.txt"]).isOk = true := rfl
  cases hx : validate_agent_output envDemo "S" "hello" ["a.txt"] with
  | error e => rw [hx] at hok; exact Bool.noConfusion hok
  | ok r => exact validate_score_clamped envDemo "S" "hello" ["a.txt"] r hx

/-- C10 counterexample: an output consisting solely of a truthful
documentation claim ("documentation updated", with README.md among the
changed files) does not yield `claims_matched = 0`: it never reaches
verification, because the documentation pattern has no capture group and
`match.group(1)` raises `IndexError` during extraction. -/
theorem validate_documentation_claim_indexerror :
    validate_agent_output envDemo "S-10" "documentation updated" ["README.md", "api.py"]
      = .error (.indexError "no such group") := rfl

/-- C10 (amended): with a non-empty `files_changed`, `claims_matched`
counts only claims of types other than `errors_fixed`, `tests_added` and
`documentation`; a passing `errors_fixed` or `tests_added` claim produces
no verification record, so an output whose extracted claims are solely
truthful claims of those two types completes with `claims_matched = 0` and
a claims-matched ratio of 0.  (Documentation claims never reach
verification: extraction raises `IndexError` on them.) -/
theorem claims_matched_counts_only_unverified (env : Env) (story_id agent_output : String)
    (files_changed : List String) (claims : List Claim)
    (hf : files_changed ≠ [])
    (hx : extract_claims agent_output = .ok claims)
    (hall : ∀ c ∈ claims, (c.ctype = "errors_fixed" ∨ c.ctype = "tests_added")
        ∧ verify_one_claim env files_changed c = .ok none) :
    ∃ r, validate_agent_output env story_id agent_output files_changed = .ok r
      ∧ r.evidence.claims_matched = 0 ∧ claims_ratio r.evidence = 0 := by
  have hfe : files_changed.isEmpty = false := by
    cases files_changed with
    | nil => exact absurd rfl hf
    | cons a l => rfl
  have haux : ∀ cs : List Claim, (∀ c ∈ cs, verify_one_claim env files_changed c = .ok none) →
      verifyClaimsAux env files_changed cs = .ok [] := by
    intro cs
    induction cs with
    | nil => exact fun _ => rfl
    | cons c cs ih =>
      intro hcs
      unfold verifyClaimsAux
      rw [hcs c (List.mem_cons_self c cs)]
      exact ih (fun d hd => hcs d (List.mem_cons_of_mem c hd))
  have hv : verify_claims env claims files_changed = .ok [] := by
    unfold verify_claims
    rw [hfe]
    simp only [Bool.false_eq_true, if_false]
    exact haux claims (fun c hc => (hall c hc).2)
  unfold validate_agent_output
  simp only [hx, hv, matched_count]
  refine ⟨_, rfl, rfl, ?_⟩
  unfold claims_ratio
  split
  · simp
  · rfl

/-- C10 witness: an output with one truthful errors-fixed claim and one
truthful tests-added claim, against a changed test file, completes with
`claims_matched = 0`. -/
theorem claims_matched_counts_only_unverified_witness :
    claims_matched_of (validate_agent_output envDemo "S-10"
      "Fixed 3 import errors\nadded unit test" ["tests/test_api.py"]) = some 0 := by
  obtain ⟨r, hr, hm, -⟩ :=
    claims_matched_counts_only_unverified envDemo "S-10"
      "Fixed 3 import errors\nadded unit test" ["tests/test_api.py"] c10DemoClaims
      (by simp) (by rfl)
      (by
        intro c hc
        simp only [c10DemoClaims, List.mem_cons, List.not_mem_nil, or_false] at hc
        rcases hc with rfl | rfl
        · exact ⟨Or.inl rfl, rfl⟩
        · exact ⟨Or.inr rfl, rfl⟩)
  rw [hr]
  simp [claims_matched_of, hm]
